import Mathlib

/-!
Shallow embedding of the Zephyr Scale / Jira client of ts_planning_tool
(src/python/lsst/ts/planning/tool/zephyr_interface.py and test_cycle.py).

JSON payloads are modelled by the inductive type J, Python exceptions by
PyErr, and every network-touching method of ZephyrInterface becomes a pure
function that takes the transport (a total function from requests to
responses, called Net) as an argument and returns the list of requests it
issued, in order, together with either the returned value or the raised
exception.
-/

namespace ZephyrProof

/-- JSON values as decoded by response.json in aiohttp; J.null also stands
for the Python value None. -/
inductive J where
  | null
  | boolean (b : Bool)
  | num (n : Int)
  | str (s : String)
  | arr (xs : List J)
  | obj (fs : List (String × J))
deriving Repr

/-- Python exceptions that the embedded code can raise. clientResponseError
is the exception an aiohttp session created with raise_for_status raises on
a status of 400 or more; it carries the status code. clientError is the
aiohttp.ClientError the code raises explicitly; its message embeds the
status code and, in get_user_name, the response text. -/
inductive PyErr where
  | valueError (msg : String)
  | keyError (k : String)
  | indexError
  | typeError
  | attributeError
  | zeroDivisionError
  | clientResponseError (status : Nat)
  | clientError (status : Nat) (text : String)
deriving DecidableEq, Repr

/-- Authentication attached to a request: the literal Authorization header
value for the Zephyr endpoints, or HTTP basic auth for the Jira endpoint. -/
inductive Auth where
  | bearer (header : String)
  | basic (user : String) (password : String)
deriving Repr

/-- An HTTP GET request as issued by the client. -/
structure Request where
  url : String
  auth : Auth
  params : List (String × J)
deriving Repr

/-- An upstream HTTP response: status code, decoded JSON body, raw text. -/
structure Response where
  status : Nat
  body : J
  text : String
deriving Repr

/-- The transport: a total function assigning a response to every request.
All network nondeterminism of a run is captured by this argument. -/
def Net : Type := Request → Response

/-- The fields of the ZephyrInterface object set by its constructor. The
token and username fields default to None in the Python constructor, hence
Option String. -/
structure ZephyrInterface where
  jira_api_token : Option String
  jira_base_url : String
  jira_username : Option String
  zephyr_api_token : Option String
  zephyr_base_url : String
deriving Repr

/-- Result of running a method: the requests it issued, in order, and the
returned value or the raised exception. -/
def Zeph (α : Type) : Type := List Request × Except PyErr α

/-- Sequencing of two steps: the traces concatenate, an exception in the
first step skips the second. -/
def zbind {α β : Type} (x : Zeph α) (f : α → Zeph β) : Zeph β :=
  match x with
  | (tr, Except.error e) => (tr, Except.error e)
  | (tr, Except.ok a) => (tr ++ (f a).1, (f a).2)

/-- A step that issues no request and returns a value. -/
def zpure {α : Type} (a : α) : Zeph α := ([], Except.ok a)

/-- A step that issues no request: a pure Except computation. -/
def liftE {α : Type} (r : Except PyErr α) : Zeph α := ([], r)

/-- Issue one request over the transport. -/
def send (net : Net) (req : Request) : Zeph Response := ([req], Except.ok (net req))

mutual
/-- Boolean equality on J, by mutual structural recursion (kernel
reducible, so concrete inequalities can be settled by rfl). -/
def jeq : J → J → Bool
  | J.null, J.null => true
  | J.boolean a, J.boolean b => a == b
  | J.num a, J.num b => a == b
  | J.str a, J.str b => a == b
  | J.arr xs, J.arr ys => jeqL xs ys
  | J.obj fs, J.obj gs => jeqF fs gs
  | _, _ => false

def jeqL : List J → List J → Bool
  | [], [] => true
  | x :: xs, y :: ys => jeq x y && jeqL xs ys
  | _, _ => false

def jeqF : List (String × J) → List (String × J) → Bool
  | [], [] => true
  | (k, v) :: fs, (l, w) :: gs => k == l && jeq v w && jeqF fs gs
  | _, _ => false
end

/-- Python dict lookup on the underlying association list; dict keys are
unique, so first match is the match. -/
def jlookup : List (String × J) → String → Option J
  | [], _ => none
  | (k, v) :: fs, key => if k = key then some v else jlookup fs key

/-- The value of dict.get with no default seen as an Option: some value if
the key is present, none otherwise (and none for non-dicts). -/
def J.get? : J → String → Option J
  | J.obj fs, key => jlookup fs key
  | _, _ => none

/-- Python subscript d[key]: the value, a KeyError for a missing key, a
TypeError when subscripting a non-dict (such as None). -/
def J.item : J → String → Except PyErr J
  | J.obj fs, key =>
      match jlookup fs key with
      | some v => Except.ok v
      | none => Except.error (PyErr.keyError key)
  | _, _ => Except.error PyErr.typeError

/-- Python dict assignment d[key] = v: replaces in place, keeping the
position of an existing key, appending a new key at the end. -/
def setKey : List (String × J) → String → J → List (String × J)
  | [], key, v => [(key, v)]
  | (k, w) :: fs, key, v =>
      if k = key then (key, v) :: fs else (k, w) :: setKey fs key v

/-- Dict assignment lifted to J; only ever applied to objects. -/
def J.set : J → String → J → J
  | J.obj fs, key, v => J.obj (setKey fs key v)
  | j, _, _ => j

/-- Python str() of a value interpolated into an f-string. Claims only ever
interpolate scalars into endpoint paths, so the composite cases carry a
fixed placeholder. -/
def pyStr : J → String
  | J.null => "None"
  | J.boolean true => "True"
  | J.boolean false => "False"
  | J.num n => toString n
  | J.str s => s
  | J.arr _ => "<list>"
  | J.obj _ => "<dict>"

/-- Python format(x, "d") as used by the f-string in get_status: defined on
integers (and bools, which are ints in Python), a ValueError on strings, a
TypeError on other values. -/
def formatD : J → Except PyErr String
  | J.num n => Except.ok (toString n)
  | J.boolean b => Except.ok (if b then "1" else "0")
  | J.str _ => Except.error (PyErr.valueError "Unknown format code d for object of type str")
  | _ => Except.error PyErr.typeError

/-- Python str() of an optional credential in an f-string: None prints as
the literal string None. -/
def optStr : Option String → String
  | none => "None"
  | some s => s

/-- The request every Zephyr-side method builds: base URL plus endpoint,
with the bearer header interpolating the token (even an absent one). -/
def zephyrRequest (zi : ZephyrInterface) (endpoint : String)
    (params : List (String × J)) : Request :=
  ⟨zi.zephyr_base_url ++ endpoint,
   Auth.bearer ("Bearer " ++ optStr zi.zephyr_api_token), params⟩

/-- One GET over an aiohttp session opened with raise_for_status: statuses
of 400 and above raise before any body is read. -/
def zephyrGet (zi : ZephyrInterface) (net : Net) (endpoint : String)
    (params : List (String × J)) : Zeph Response :=
  let req := zephyrRequest zi endpoint params
  let resp := net req
  if 400 ≤ resp.status then ([req], Except.error (PyErr.clientResponseError resp.status))
  else ([req], Except.ok resp)

/-- ZephyrInterface.get_test_case: fetch testcases/{key} and return the
decoded body unchanged. -/
def get_test_case (zi : ZephyrInterface) (net : Net) (test_case_key : String) : Zeph J :=
  zbind (zephyrGet zi net ("testcases/" ++ test_case_key) []) (fun resp => zpure resp.body)

/-- ZephyrInterface.get_test_execution: fetch testexecutions/{key} and
return the decoded body unchanged. -/
def get_test_execution (zi : ZephyrInterface) (net : Net)
    (test_execution_key : String) : Zeph J :=
  zbind (zephyrGet zi net ("testexecutions/" ++ test_execution_key) [])
    (fun resp => zpure resp.body)

/-- ZephyrInterface.get_project: fetch projects/{id} and return the key
field of the body. -/
def get_project (zi : ZephyrInterface) (net : Net) (project_id : J) : Zeph J :=
  zbind (zephyrGet zi net ("projects/" ++ pyStr project_id) [])
    (fun resp => liftE (resp.body.item "key"))

/-- ZephyrInterface.get_status: format the id with :d, fetch
statuses/{id} and return the name field of the body. -/
def get_status (zi : ZephyrInterface) (net : Net) (status_id : J) : Zeph J :=
  match formatD status_id with
  | Except.error e => ([], Except.error e)
  | Except.ok sid =>
      zbind (zephyrGet zi net ("statuses/" ++ sid) [])
        (fun resp => liftE (resp.body.item "name"))

/-- The request get_user_name builds: the Jira user endpoint with basic
auth and the account id forwarded verbatim as the accountId parameter. -/
def jiraUserRequest (zi : ZephyrInterface) (tok : String) (account_id : J) : Request :=
  ⟨zi.jira_base_url ++ "user",
   Auth.basic (optStr zi.jira_username ++ "@lsst.org") tok,
   [("accountId", account_id)]⟩

/-- ZephyrInterface.get_user_name: a ValueError before any request when the
Jira token is None; otherwise one GET of the user endpoint with the
argument passed through as the accountId parameter, returning the
displayName field on status 200 and raising a ClientError (status code and
response text in the message) on any other status. -/
def get_user_name (zi : ZephyrInterface) (net : Net) (account_id : J) : Zeph J :=
  match zi.jira_api_token with
  | none => ([], Except.error (PyErr.valueError "JIRA API token is not set"))
  | some tok =>
      let req := jiraUserRequest zi tok account_id
      let resp := net req
      if resp.status = 200 then ([req], resp.body.item "displayName")
      else ([req], Except.error (PyErr.clientError resp.status resp.text))

/-- ZephyrInterface.get_test_cycle: fetch testcycles/{key}, then overwrite
the project, status and owner fields of the body with the results of
get_project, get_status and get_user_name applied to the embedded ids. -/
def get_test_cycle (zi : ZephyrInterface) (net : Net) (test_cycle_key : String) : Zeph J :=
  zbind (zephyrGet zi net ("testcycles/" ++ test_cycle_key) []) (fun resp =>
  zbind (liftE (resp.body.item "project")) (fun pref =>
  zbind (liftE (pref.item "id")) (fun pid =>
  zbind (get_project zi net pid) (fun pkey =>
  let v1 := resp.body.set "project" pkey
  zbind (liftE (v1.item "status")) (fun sref =>
  zbind (liftE (sref.item "id")) (fun sid =>
  zbind (get_status zi net sid) (fun sname =>
  let v2 := v1.set "status" sname
  zbind (liftE (v2.item "owner")) (fun oref =>
  zbind (liftE (oref.item "accountId")) (fun aid =>
  zbind (get_user_name zi net aid) (fun uname =>
  zpure (v2.set "owner" uname)))))))))))

/-- The default for the optional cycle_keys argument. -/
def optKeys : Option (List String) → List String
  | none => []
  | some ks => ks

/-- Python test_cycles[0]: IndexError on an empty list, TypeError when
indexing a non-list. -/
def pyIndexZero : J → Except PyErr J
  | J.arr (x :: _) => Except.ok x
  | J.arr [] => Except.error PyErr.indexError
  | _ => Except.error PyErr.typeError

/-- Python key in d.keys(): membership for dicts, AttributeError when keys
is taken of a non-dict. -/
def keysContain : J → String → Except PyErr Bool
  | J.obj fs, k => Except.ok (jlookup fs k).isSome
  | _, k => (fun _ => Except.error PyErr.attributeError) k

/-- The validation loop of get_test_cycles: for each query key, index the
first cycle and test membership, raising a KeyError at the first key the
first cycle lacks. -/
def checkQueryKeys (tcs : J) : List String → Except PyErr Unit
  | [] => Except.ok ()
  | k :: ks =>
      match pyIndexZero tcs with
      | Except.error e => Except.error e
      | Except.ok first =>
          match keysContain first k with
          | Except.error e => Except.error e
          | Except.ok true => checkQueryKeys tcs ks
          | Except.ok false => Except.error (PyErr.keyError k)

/-- The dict comprehension of get_test_cycles applied to one cycle: read
each query key in order (KeyError when absent) into a fresh dict. -/
def buildFields (cycle : J) : List String → List (String × J) → Except PyErr (List (String × J))
  | [], acc => Except.ok acc
  | k :: ks, acc =>
      match cycle.item k with
      | Except.error e => Except.error e
      | Except.ok v => buildFields cycle ks (setKey acc k v)

/-- One projected output dict of get_test_cycles. -/
def projectOne (qkeys : List String) (cycle : J) : Except PyErr J :=
  match buildFields cycle qkeys [] with
  | Except.error e => Except.error e
  | Except.ok fs => Except.ok (J.obj fs)

/-- The output loop of get_test_cycles: project every cycle in order,
stopping at the first failure. -/
def projectAll (qkeys : List String) : List J → Except PyErr (List J)
  | [] => Except.ok []
  | c :: cs =>
      match projectOne qkeys c with
      | Except.error e => Except.error e
      | Except.ok o =>
          match projectAll qkeys cs with
          | Except.error e => Except.error e
          | Except.ok os => Except.ok (o :: os)

/-- Post-processing of the listing response, after the session closes:
take the values list (on status 200 only), validate the query keys against
the first cycle, project every cycle. -/
def cyclesBody (resp : Response) (qkeys : List String) : Except PyErr (List J) :=
  match (if resp.status = 200 then resp.body.item "values"
         else Except.error (PyErr.clientError resp.status "Failed to query test cycles")) with
  | Except.error e => Except.error e
  | Except.ok tcs =>
      match checkQueryKeys tcs qkeys with
      | Except.error e => Except.error e
      | Except.ok _ =>
          match tcs with
          | J.arr cycles => projectAll qkeys cycles
          | _ => Except.error PyErr.typeError

/-- The parameters of the listing request. -/
def cyclesParams (max_results start_at : Int) (project_key : String) : List (String × J) :=
  [("maxResults", J.num max_results), ("startAt", J.num start_at),
   ("projectKey", J.str project_key)]

/-- ZephyrInterface.get_test_cycles: validate that start_at is a multiple
of max_results before any request (Python % raises ZeroDivisionError on a
zero divisor), then fetch the listing and project each returned cycle onto
id, key and the requested extra keys. -/
def get_test_cycles (zi : ZephyrInterface) (net : Net) (cycle_keys : Option (List String))
    (max_results start_at : Int) (project_key : String) : Zeph (List J) :=
  if max_results = 0 then ([], Except.error PyErr.zeroDivisionError)
  else if start_at % max_results = 0 then
    zbind (zephyrGet zi net "testcycles" (cyclesParams max_results start_at project_key))
      (fun resp => liftE (cyclesBody resp ("id" :: "key" :: optKeys cycle_keys)))
  else ([], Except.error (PyErr.valueError "startAt must be a multiple of maxResults"))

/-- Python test_execution_json.get(k): the value or None for dicts,
AttributeError when get is taken of a non-dict (None included). -/
def pyDictGet : J → String → Except PyErr J
  | J.obj fs, k =>
      Except.ok (match jlookup fs k with
                 | some v => v
                 | none => J.null)
  | _, k => (fun _ => Except.error PyErr.attributeError) k

/-- Python str.split with a one-character separator, by structural
recursion over the character list (so concrete runs reduce): split at
every occurrence of the separator, adjacent separators and separators at
either end contributing empty pieces, the empty string splitting to a
single empty piece. -/
def splitChars (sep : Char) : List Char → List String
  | [] => [""]
  | c :: rest =>
      match splitChars sep rest with
      | [] => [""]
      | h :: t =>
          if c = sep then "" :: h :: t
          else String.mk (c :: h.data) :: t

/-- Python url.split on a slash: defined on strings only (AttributeError
otherwise). -/
def pySplitSlash : J → Except PyErr (List String)
  | J.str s => Except.ok (splitChars '/' s.toList)
  | _ => Except.error PyErr.attributeError

/-- ZephyrInterface.extract_test_case_from_test_execution: a static, pure
method; read testCase.self with .get chaining, split the URL on slashes
and return (parts[-3], parts[-1]). Negative indexing raises IndexError
when the list is shorter than 3. -/
def extract_test_case_from_test_execution (test_execution_json : J) :
    Except PyErr (String × String) :=
  match pyDictGet test_execution_json "testCase" with
  | Except.error e => Except.error e
  | Except.ok tc =>
      match pyDictGet tc "self" with
      | Except.error e => Except.error e
      | Except.ok sv =>
          match pySplitSlash sv with
          | Except.error e => Except.error e
          | Except.ok parts =>
              if 3 ≤ parts.length then
                Except.ok (parts.getD (parts.length - 3) "", parts.getD (parts.length - 1) "")
              else Except.error PyErr.indexError

/-- Strip the base URL from a self link to obtain a relative endpoint. -/
def dropBase (base url : String) : String :=
  if base.isPrefixOf url then url.drop base.length else url

/-- Merge of two field lists where the original keys win: fetched fields
whose key is new are appended, fields already present stay untouched. -/
def mergeFields : List (String × J) → List (String × J) → List (String × J)
  | orig, [] => orig
  | orig, (k, v) :: rest =>
      if (jlookup orig k).isSome then mergeFields orig rest
      else mergeFields (orig ++ [(k, v)]) rest

/-- Merge of the original reference object with the fetched object,
original keys winning. -/
def mergeKeep : J → J → J
  | J.obj orig, J.obj fetched => J.obj (mergeFields orig fetched)
  | o, _ => o

/-- Modelled from the spec: the generic dereference operation of section
4.2 (called parse by the tests and the CLI of this repository) is not among
the source files under src; only its tests and callers are. Per the spec,
it returns None unchanged when the input reference is None, and otherwise
strips the service base URL from the self link of the reference, fetches
the relative endpoint, and returns the original object merged with the
fetched object, original keys winning. -/
def parse (zi : ZephyrInterface) (net : Net) (json_obj : J) : Zeph J :=
  match json_obj with
  | J.null => ([], Except.ok J.null)
  | j =>
      zbind (liftE (j.item "self")) (fun sv =>
        match sv with
        | J.str url =>
            zbind (zephyrGet zi net (dropBase zi.zephyr_base_url url) [])
              (fun resp => zpure (mergeKeep j resp.body))
        | _ => ([], Except.error PyErr.typeError))

/-- Whether a value is a dict. -/
def J.isObj : J → Bool
  | J.obj _ => true
  | _ => false

/-- Whether a dict has a key (false on non-dicts). -/
def hasKeyB (c : J) (k : String) : Bool := (J.get? c k).isSome

/-- The projection of one cycle onto a key list, as a pure function: read
each key in order into a fresh dict, a missing key contributing null. Under
the presence hypotheses of the theorems below this is exactly what the
dict comprehension of get_test_cycles builds. -/
def projPure (qkeys : List String) (c : J) : J :=
  J.obj (qkeys.foldl (fun acc k => setKey acc k ((J.get? c k).getD J.null)) [])

mutual
/-- jeq is reflexive, hence a false jeq refutes equality. -/
theorem jeq_refl : (a : J) → jeq a a = true
  | J.null => rfl
  | J.boolean b => by simp [jeq]
  | J.num n => by simp [jeq]
  | J.str s => by simp [jeq]
  | J.arr xs => by simpa [jeq] using jeqL_refl xs
  | J.obj fs => by simpa [jeq] using jeqF_refl fs

/-- jeqL is reflexive. -/
theorem jeqL_refl : (xs : List J) → jeqL xs xs = true
  | [] => rfl
  | x :: xs => by simp [jeqL, jeq_refl x, jeqL_refl xs]

/-- jeqF is reflexive. -/
theorem jeqF_refl : (fs : List (String × J)) → jeqF fs fs = true
  | [] => rfl
  | (k, v) :: fs => by simp [jeqF, jeq_refl v, jeqF_refl fs]
end

/-- Two values with a false jeq are distinct. -/
theorem ne_of_jeq_false {a b : J} (h : jeq a b = false) : a ≠ b := by
  intro he
  rw [he, jeq_refl] at h
  exact absurd h (by simp)

/-! Concrete fixtures: a configured interface, a fully stubbed transport
for a test cycle with its three reference fields, and the payloads the
stub serves. -/

/-- An interface with every credential configured. -/
def zi0 : ZephyrInterface := ⟨some "jt", "jira/", some "u", some "zt", "z/"⟩

/-- The project reference object embedded in the stubbed cycle. -/
def projectRef0 : J := J.obj [("id", J.num 10), ("self", J.str "z/projects/10")]

/-- The status reference object embedded in the stubbed cycle. -/
def statusRef0 : J := J.obj [("id", J.num 5), ("self", J.str "z/statuses/5")]

/-- The owner reference object embedded in the stubbed cycle. -/
def ownerRef0 : J := J.obj [("accountId", J.str "abc"), ("self", J.str "jira/user/abc")]

/-- The upstream JSON payload of the stubbed test cycle. -/
def body0 : J := J.obj [("id", J.num 1), ("key", J.str "BLOCK-R1"),
  ("project", projectRef0), ("status", statusRef0), ("owner", ownerRef0)]

/-- What get_test_cycle actually returns for body0 over net0: the three
reference fields overwritten with bare scalars. -/
def cycleParsed0 : J := J.obj [("id", J.num 1), ("key", J.str "BLOCK-R1"),
  ("project", J.str "BLOCK"), ("status", J.str "Done"), ("owner", J.str "Jane")]

/-- A stub transport serving the cycle, its project, its status and its
owner; everything else is a 404. -/
def net0 : Net := fun req =>
  if req.url = "z/testcycles/BLOCK-R1" then ⟨200, body0, ""⟩
  else if req.url = "z/projects/10" then ⟨200, J.obj [("id", J.num 10), ("key", J.str "BLOCK")], ""⟩
  else if req.url = "z/statuses/5" then ⟨200, J.obj [("id", J.num 5), ("name", J.str "Done")], ""⟩
  else if req.url = "jira/user" then ⟨200, J.obj [("displayName", J.str "Jane")], ""⟩
  else ⟨404, J.null, "not found"⟩

/-- A stub Jira transport that authenticates only the bare string account
id abc: it serves the user for a request whose single parameter value is
the string abc and answers 404 to anything else (in particular to an
object-valued or null accountId parameter). -/
def netU : Net := fun req =>
  match req.params with
  | [(_, J.str s)] =>
      if s = "abc" then ⟨200, J.obj [("displayName", J.str "Jane")], "ok"⟩
      else ⟨404, J.null, "err"⟩
  | _ => ⟨404, J.null, "err"⟩

/-- C1: the claim says every entity retrieval called in the default raw
fidelity mode returns the upstream JSON payload with no field modified.
The get_test_cycle of the source takes no mode argument at all, and its
only behaviour rewrites the payload: over the stub transport net0 the
upstream body is body0, yet the method returns cycleParsed0, in which the
project, status and owner fields have been overwritten, so the returned
payload differs from the decoded upstream response. -/
theorem c1_get_test_cycle_rewrites_payload :
    (net0 (zephyrRequest zi0 "testcycles/BLOCK-R1" [])).body = body0 ∧
    (get_test_cycle zi0 net0 "BLOCK-R1").2 = Except.ok cycleParsed0 ∧
    cycleParsed0 ≠ body0 :=
  ⟨rfl, rfl, ne_of_jeq_false rfl⟩

/-- C2: the claim says enrichment replaces each reference field with the
union of the original reference object and the dereferenced object, so the
enriched key set is a superset of the raw one. In the source the
enrichment substitutes a bare scalar: at the status field the raw payload
holds an object with keys id and self, while the returned payload holds
the string Done, which has no keys at all, so the original sub-fields are
deleted rather than preserved. -/
theorem c2_enrichment_discards_original_subfields :
    (get_test_cycle zi0 net0 "BLOCK-R1").2 = Except.ok cycleParsed0 ∧
    J.get? body0 "status" = some statusRef0 ∧
    J.get? statusRef0 "id" = some (J.num 5) ∧
    J.get? statusRef0 "self" = some (J.str "z/statuses/5") ∧
    J.get? cycleParsed0 "status" = some (J.str "Done") ∧
    (∀ k : String, J.get? (J.str "Done") k = none) :=
  ⟨rfl, rfl, rfl, rfl, rfl, fun _ => rfl⟩

/-- C3 counterexample: with the Jira token configured, get_user_name
applied to None issues a request (with accountId forwarded as null) rather
than returning None without a request, and the bare-string and
object-wrapped forms of the same account id produce different results over
the same transport, because the argument is forwarded verbatim instead of
being normalized. -/
theorem c3_no_normalization_counterexample :
    (get_user_name zi0 netU J.null).1 = [jiraUserRequest zi0 "jt" J.null] ∧
    (get_user_name zi0 netU (J.str "abc")).2 = Except.ok (J.str "Jane") ∧
    (get_user_name zi0 netU (J.obj [("accountId", J.str "abc")])).2 =
      Except.error (PyErr.clientError 404 "err") :=
  ⟨rfl, rfl, rfl⟩

/-- C3 amended: get_user_name performs no normalization of the user
identity: once the Jira token check passes it issues exactly one request
whose accountId parameter is its argument forwarded verbatim, whether that
argument is None, a bare string, or an embedded object. -/
theorem c3_get_user_name_forwards_argument :
    ∀ (zi : ZephyrInterface) (net : Net) (v : J) (tok : String),
      zi.jira_api_token = some tok →
      (get_user_name zi net v).1 = [jiraUserRequest zi tok v] ∧
      (jiraUserRequest zi tok v).params = [("accountId", v)] := by
  intro zi net v tok h
  refine ⟨?_, rfl⟩
  simp only [get_user_name, h]
  split <;> rfl

/-- C3 witness: the amended theorem applied to the configured interface,
the stub Jira transport and the null account id. -/
theorem c3_forwards_argument_witness :
    (get_user_name zi0 netU J.null).1 = [jiraUserRequest zi0 "jt" J.null] ∧
    (jiraUserRequest zi0 "jt" J.null).params = [("accountId", J.null)] :=
  c3_get_user_name_forwards_argument zi0 netU J.null "jt" rfl

/-- C7: the generic dereference operation (modelled from the spec as
parse, since it is absent from the source files under src) applied to a
None reference returns None unchanged and issues no request. -/
theorem c7_parse_none_no_fetch :
    ∀ (zi : ZephyrInterface) (net : Net), parse zi net J.null = ([], Except.ok J.null) :=
  fun _ _ => rfl

/-- Binding a step whose continuation issues no request keeps the trace of
the first step. -/
theorem zbind_empty_fst {α β : Type} (x : Zeph α) (g : α → Zeph β)
    (h : ∀ a, (g a).1 = []) : (zbind x g).1 = x.1 := by
  obtain ⟨tr, r⟩ := x
  cases r with
  | error e => rfl
  | ok a => simp [zbind, h a]

/-- zephyrGet always issues exactly its one request. -/
theorem zephyrGet_fst (zi : ZephyrInterface) (net : Net) (e : String)
    (p : List (String × J)) : (zephyrGet zi net e p).1 = [zephyrRequest zi e p] := by
  simp only [zephyrGet]
  split <;> rfl

/-- An interface whose Jira token is unset. -/
def ziNoJira : ZephyrInterface := ⟨none, "jira/", some "u", some "zt", "z/"⟩

/-- An interface whose Zephyr token is unset. -/
def ziNoZephyr : ZephyrInterface := ⟨some "jt", "jira/", some "u", none, "z/"⟩

/-- A transport that answers 404 with body null and text nf to every
request. -/
def net404 : Net := fun _ => ⟨404, J.null, "nf"⟩

/-- C4: get_test_cycles validates the pagination parameters first: when
start_at is not a multiple of max_results it raises ValueError with no
request issued, and when it is a multiple the validation passes and the
listing request is issued. -/
theorem c4_pagination_validation :
    ∀ (zi : ZephyrInterface) (net : Net) (ck : Option (List String))
      (pk : String) (mr sa : Int), mr ≠ 0 →
      (sa % mr ≠ 0 →
        get_test_cycles zi net ck mr sa pk =
          ([], Except.error (PyErr.valueError "startAt must be a multiple of maxResults"))) ∧
      (sa % mr = 0 →
        (get_test_cycles zi net ck mr sa pk).1 =
          [zephyrRequest zi "testcycles" (cyclesParams mr sa pk)]) := by
  intro zi net ck pk mr sa hmr
  constructor
  · intro hne
    simp only [get_test_cycles, if_neg hmr, if_neg hne]
  · intro heq
    simp only [get_test_cycles, if_neg hmr, if_pos heq]
    rw [zbind_empty_fst _ _ (fun _ => rfl), zephyrGet_fst]

/-- C4 witness: start_at 7 with max_results 20 fails the validation before
any request; start_at 20 with max_results 20 passes it and the listing
request goes out. -/
theorem c4_pagination_witness :
    ((7 : Int) % 20 ≠ 0 ∧
      get_test_cycles zi0 net0 none 20 7 "BLOCK" =
        ([], Except.error (PyErr.valueError "startAt must be a multiple of maxResults"))) ∧
    ((20 : Int) % 20 = 0 ∧
      (get_test_cycles zi0 net0 none 20 20 "BLOCK").1 =
        [zephyrRequest zi0 "testcycles" (cyclesParams 20 20 "BLOCK")]) :=
  ⟨⟨by decide,
    (c4_pagination_validation zi0 net0 none "BLOCK" 20 7 (by decide)).1 (by decide)⟩,
   ⟨by decide,
    (c4_pagination_validation zi0 net0 none "BLOCK" 20 20 (by decide)).2 (by decide)⟩⟩

/-- C5 counterexample: with the Zephyr token unset, get_test_case does not
fail fast: it issues its request anyway, carrying the literal header
Bearer None, so a request is sent with a missing credential. -/
theorem c5_request_sent_without_credential :
    ziNoZephyr.zephyr_api_token = none ∧
    (get_test_case ziNoZephyr net404 "BLOCK-T1").1 =
      [⟨"z/testcases/BLOCK-T1", Auth.bearer "Bearer None", []⟩] :=
  ⟨rfl, rfl⟩

/-- C5 amended: only get_user_name checks its required credential,
raising ValueError before any request when the Jira token is unset; the
Zephyr-side operations perform no check and issue the request with the
header Bearer None when the Zephyr token is unset. -/
theorem c5_credential_checks :
    (∀ (zi : ZephyrInterface) (net : Net) (v : J),
      zi.jira_api_token = none →
      get_user_name zi net v =
        ([], Except.error (PyErr.valueError "JIRA API token is not set"))) ∧
    (∀ (zi : ZephyrInterface) (net : Net) (k : String),
      zi.zephyr_api_token = none →
      (get_test_case zi net k).1 =
        [⟨zi.zephyr_base_url ++ ("testcases/" ++ k), Auth.bearer "Bearer None", []⟩]) := by
  constructor
  · intro zi net v h
    simp only [get_user_name, h]
  · intro zi net k h
    simp only [get_test_case]
    rw [zbind_empty_fst _ _ (fun _ => rfl), zephyrGet_fst]
    simp only [zephyrRequest, h]
    rfl

/-- C5 witness: the amended theorem applied to an interface with no Jira
token and to an interface with no Zephyr token. -/
theorem c5_credential_checks_witness :
    (get_user_name ziNoJira net404 (J.str "abc") =
      ([], Except.error (PyErr.valueError "JIRA API token is not set"))) ∧
    ((get_test_case ziNoZephyr net404 "K").1 =
      [⟨ziNoZephyr.zephyr_base_url ++ ("testcases/" ++ "K"), Auth.bearer "Bearer None", []⟩]) :=
  ⟨c5_credential_checks.1 ziNoJira net404 (J.str "abc") rfl,
   c5_credential_checks.2 ziNoZephyr net404 "K" rfl⟩

/-- C6: when the upstream response status is non-success (400 or above,
the aiohttp raise_for_status boundary), each entity retrieval raises an
error carrying that status code instead of returning any payload; and
get_user_name raises a ClientError carrying the status code and the
response text on any non-200 status. -/
theorem c6_transport_errors :
    ∀ (zi : ZephyrInterface) (net : Net) (key : String),
      (400 ≤ (net (zephyrRequest zi ("testcases/" ++ key) [])).status →
        (get_test_case zi net key).2 =
          Except.error (PyErr.clientResponseError
            (net (zephyrRequest zi ("testcases/" ++ key) [])).status)) ∧
      (400 ≤ (net (zephyrRequest zi ("testexecutions/" ++ key) [])).status →
        (get_test_execution zi net key).2 =
          Except.error (PyErr.clientResponseError
            (net (zephyrRequest zi ("testexecutions/" ++ key) [])).status)) ∧
      (400 ≤ (net (zephyrRequest zi ("testcycles/" ++ key) [])).status →
        (get_test_cycle zi net key).2 =
          Except.error (PyErr.clientResponseError
            (net (zephyrRequest zi ("testcycles/" ++ key) [])).status)) ∧
      (∀ (tok : String) (v : J), zi.jira_api_token = some tok →
        (net (jiraUserRequest zi tok v)).status ≠ 200 →
        (get_user_name zi net v).2 =
          Except.error (PyErr.clientError (net (jiraUserRequest zi tok v)).status
            (net (jiraUserRequest zi tok v)).text)) := by
  intro zi net key
  refine ⟨fun h => ?_, fun h => ?_, fun h => ?_, fun tok v h1 h2 => ?_⟩
  · simp only [get_test_case, zephyrGet]
    rw [if_pos h]
    rfl
  · simp only [get_test_execution, zephyrGet]
    rw [if_pos h]
    rfl
  · simp only [get_test_cycle, zephyrGet]
    rw [if_pos h]
    rfl
  · simp only [get_user_name, h1]
    rw [if_neg h2]

/-- C6 witness: over the all-404 transport, each retrieval raises the
error carrying status 404 and get_user_name raises a ClientError carrying
status 404 and the response text. -/
theorem c6_transport_errors_witness :
    (get_test_case zi0 net404 "K").2 = Except.error (PyErr.clientResponseError 404) ∧
    (get_test_execution zi0 net404 "K").2 = Except.error (PyErr.clientResponseError 404) ∧
    (get_test_cycle zi0 net404 "K").2 = Except.error (PyErr.clientResponseError 404) ∧
    (get_user_name zi0 net404 (J.str "abc")).2 = Except.error (PyErr.clientError 404 "nf") :=
  ⟨(c6_transport_errors zi0 net404 "K").1 (by decide),
   (c6_transport_errors zi0 net404 "K").2.1 (by decide),
   (c6_transport_errors zi0 net404 "K").2.2.1 (by decide),
   (c6_transport_errors zi0 net404 "K").2.2.2 "jt" (J.str "abc") rfl (by decide)⟩

/-- Once the pagination validation passes and the listing response is
below the raise_for_status boundary, the result of get_test_cycles is the
pure post-processing of that one response. -/
theorem get_test_cycles_snd (zi : ZephyrInterface) (net : Net)
    (ck : Option (List String)) (pk : String) (mr sa : Int)
    (hmr : mr ≠ 0) (heq : sa % mr = 0)
    (hst : ¬ 400 ≤ (net (zephyrRequest zi "testcycles" (cyclesParams mr sa pk))).status) :
    (get_test_cycles zi net ck mr sa pk).2 =
      cyclesBody (net (zephyrRequest zi "testcycles" (cyclesParams mr sa pk)))
        ("id" :: "key" :: optKeys ck) := by
  simp only [get_test_cycles, if_neg hmr, if_pos heq, zephyrGet]
  rw [if_neg hst]
  rfl

/-- On a 200 listing response, the post-processing reduces to validating
the query keys against the values list and projecting it. -/
theorem cyclesBody_eval (resp : Response) (qkeys : List String) (cycles : List J)
    (hst : resp.status = 200)
    (hv : resp.body.item "values" = Except.ok (J.arr cycles)) :
    cyclesBody resp qkeys =
      (match checkQueryKeys (J.arr cycles) qkeys with
       | Except.error e => Except.error e
       | Except.ok _ => projectAll qkeys cycles) := by
  simp only [cyclesBody]
  rw [if_pos hst, hv]

/-- A value whose isObj test passes is an object. -/
theorem isObj_exists {c : J} (h : c.isObj = true) : ∃ fs, c = J.obj fs := by
  cases c <;> simp [J.isObj] at h ⊢

/-- The dict comprehension over keys all present in the cycle succeeds and
folds the projected fields left to right. -/
theorem buildFields_ok (fs : List (String × J)) :
    ∀ (ks : List String) (acc : List (String × J)),
      (∀ k ∈ ks, hasKeyB (J.obj fs) k = true) →
      buildFields (J.obj fs) ks acc =
        Except.ok (ks.foldl (fun a k => setKey a k ((J.get? (J.obj fs) k).getD J.null)) acc) := by
  intro ks
  induction ks with
  | nil => intro acc h; rfl
  | cons k ks ih =>
      intro acc h
      have hk : hasKeyB (J.obj fs) k = true := h k (by simp)
      obtain ⟨v, hv⟩ : ∃ v, jlookup fs k = some v := Option.isSome_iff_exists.mp hk
      simp only [buildFields, J.item, hv, List.foldl_cons]
      have hval : (J.get? (J.obj fs) k).getD J.null = v := by
        simp [J.get?, hv]
      rw [hval]
      exact ih (setKey acc k v) (fun k2 hk2 => h k2 (by simp [hk2]))

/-- Projecting one cycle whose keys are all present yields the pure
projection. -/
theorem projectOne_ok (qkeys : List String) (fs : List (String × J))
    (hkeys : ∀ k ∈ qkeys, hasKeyB (J.obj fs) k = true) :
    projectOne qkeys (J.obj fs) = Except.ok (projPure qkeys (J.obj fs)) := by
  simp only [projectOne, buildFields_ok fs qkeys [] hkeys, projPure]

/-- Projecting a list of cycles that are all objects with all requested
keys present yields the map of the pure projection. -/
theorem projectAll_ok (qkeys : List String) :
    ∀ (cycles : List J),
      (∀ c ∈ cycles, c.isObj = true ∧ ∀ k ∈ qkeys, hasKeyB c k = true) →
      projectAll qkeys cycles = Except.ok (cycles.map (projPure qkeys)) := by
  intro cycles
  induction cycles with
  | nil => intro h; rfl
  | cons c cs ih =>
      intro h
      obtain ⟨hobj, hkeys⟩ := h c (by simp)
      obtain ⟨fs, rfl⟩ := isObj_exists hobj
      simp only [projectAll, projectOne_ok qkeys fs hkeys,
        ih (fun c2 hc2 => h c2 (by simp [hc2])), List.map_cons]

/-- The validation loop succeeds when the first cycle is an object that
has every query key. -/
theorem checkQueryKeys_ok (fs : List (String × J)) (rest : List J) :
    ∀ ks : List String, (∀ k ∈ ks, hasKeyB (J.obj fs) k = true) →
      checkQueryKeys (J.arr (J.obj fs :: rest)) ks = Except.ok () := by
  intro ks
  induction ks with
  | nil => intro h; rfl
  | cons k ks ih =>
      intro h
      have hk : hasKeyB (J.obj fs) k = true := h k (by simp)
      simp only [checkQueryKeys, pyIndexZero, keysContain]
      rw [show (jlookup fs k).isSome = true from hk]
      exact ih (fun k2 hk2 => h k2 (by simp [hk2]))

/-- The validation loop raises a KeyError for some key the first cycle
lacks whenever at least one query key is missing from it. -/
theorem checkQueryKeys_missing (fs : List (String × J)) (rest : List J) :
    ∀ ks : List String, (∃ k, k ∈ ks ∧ hasKeyB (J.obj fs) k = false) →
      ∃ k0, hasKeyB (J.obj fs) k0 = false ∧
        checkQueryKeys (J.arr (J.obj fs :: rest)) ks = Except.error (PyErr.keyError k0) := by
  intro ks
  induction ks with
  | nil =>
      rintro ⟨k, hk, _⟩
      simp at hk
  | cons k ks ih =>
      rintro ⟨k1, hk1mem, hk1false⟩
      by_cases hk : hasKeyB (J.obj fs) k = true
      · have hne : k1 ≠ k := by
          intro he
          rw [he, hk] at hk1false
          exact absurd hk1false (by simp)
        have hk1ks : k1 ∈ ks := by
          rcases List.mem_cons.mp hk1mem with h | h
          · exact absurd h hne
          · exact h
        obtain ⟨k0, h0, hrec⟩ := ih ⟨k1, hk1ks, hk1false⟩
        refine ⟨k0, h0, ?_⟩
        simp only [checkQueryKeys, pyIndexZero, keysContain]
        rw [show (jlookup fs k).isSome = true from hk]
        exact hrec
      · have hkf : hasKeyB (J.obj fs) k = false := by
          cases hbool : hasKeyB (J.obj fs) k
          · rfl
          · exact absurd hbool hk
        refine ⟨k, hkf, ?_⟩
        simp only [checkQueryKeys, pyIndexZero, keysContain]
        rw [show (jlookup fs k).isSome = false from hkf]

/-- The first cycle served by the C8 stubs: it has the keys id, key and
name. -/
def c8cycleA : J := J.obj [("id", J.num 1), ("key", J.str "A"), ("name", J.str "x")]

/-- The second cycle served by the C8 counterexample stub: it lacks the
key name. -/
def c8cycleB : J := J.obj [("id", J.num 2), ("key", J.str "B")]

/-- A listing stub whose first cycle has the requested key name but whose
second cycle lacks it. -/
def net8 : Net := fun req =>
  if req.url = "z/testcycles" then
    ⟨200, J.obj [("values", J.arr [c8cycleA, c8cycleB])], ""⟩
  else ⟨404, J.null, "nf"⟩

/-- A listing stub serving a single cycle with all requested keys. -/
def net8w : Net := fun req =>
  if req.url = "z/testcycles" then ⟨200, J.obj [("values", J.arr [c8cycleA])], ""⟩
  else ⟨404, J.null, "nf"⟩

/-- A listing stub serving an empty values list. -/
def net9 : Net := fun req =>
  if req.url = "z/testcycles" then ⟨200, J.obj [("values", J.arr [])], ""⟩
  else ⟨404, J.null, "nf"⟩

/-- C8 counterexample: the claim only requires the requested keys to be
keys of the first returned cycle; over net8 the first cycle has the
requested key name, yet get_test_cycles raises a KeyError (from the second
cycle, which lacks it) instead of returning the projections. -/
theorem c8_keyerror_despite_first_cycle :
    hasKeyB c8cycleA "name" = true ∧
    (get_test_cycles zi0 net8 (some ["name"]) 20 0 "BLOCK").2 =
      Except.error (PyErr.keyError "name") :=
  ⟨rfl, rfl⟩

/-- C8 amended: when validation passes and the listing returns a
non-empty values list of objects in which EVERY cycle has every requested
key, get_test_cycles returns the projection of each cycle onto id, key
and the extra keys, one output per cycle; and when the first cycle lacks
some requested key it raises a KeyError naming a key the first cycle
lacks. -/
theorem c8_projection_of_cycles :
    ∀ (zi : ZephyrInterface) (net : Net) (ck : Option (List String)) (pk : String)
      (mr sa : Int) (cycles : List J),
      mr ≠ 0 → sa % mr = 0 →
      (net (zephyrRequest zi "testcycles" (cyclesParams mr sa pk))).status = 200 →
      (net (zephyrRequest zi "testcycles" (cyclesParams mr sa pk))).body.item "values" =
        Except.ok (J.arr cycles) →
      ((∀ c ∈ cycles, c.isObj = true ∧
          ∀ k ∈ "id" :: "key" :: optKeys ck, hasKeyB c k = true) →
        cycles ≠ [] →
        (get_test_cycles zi net ck mr sa pk).2 =
          Except.ok (cycles.map (projPure ("id" :: "key" :: optKeys ck))) ∧
        (cycles.map (projPure ("id" :: "key" :: optKeys ck))).length = cycles.length) ∧
      (∀ first rest, cycles = first :: rest → first.isObj = true →
        (∃ k, k ∈ "id" :: "key" :: optKeys ck ∧ hasKeyB first k = false) →
        ∃ k0, hasKeyB first k0 = false ∧
          (get_test_cycles zi net ck mr sa pk).2 = Except.error (PyErr.keyError k0)) := by
  intro zi net ck pk mr sa cycles hmr heq hst hv
  have hstle : ¬ 400 ≤ (net (zephyrRequest zi "testcycles" (cyclesParams mr sa pk))).status := by
    rw [hst]
    omega
  have hred := get_test_cycles_snd zi net ck pk mr sa hmr heq hstle
  constructor
  · intro hall hne
    obtain ⟨first, rest, rfl⟩ : ∃ f r, cycles = f :: r := by
      cases cycles with
      | nil => exact absurd rfl hne
      | cons f r => exact ⟨f, r, rfl⟩
    obtain ⟨hobj1, hkeys1⟩ := hall first (by simp)
    obtain ⟨fs, rfl⟩ := isObj_exists hobj1
    constructor
    · rw [hred, cyclesBody_eval _ _ _ hst hv, checkQueryKeys_ok fs rest _ hkeys1]
      exact projectAll_ok _ _ hall
    · exact List.length_map _ _
  · intro first rest hcyc hobj hmiss
    subst hcyc
    obtain ⟨fs, rfl⟩ := isObj_exists hobj
    obtain ⟨k0, h0, hchk⟩ := checkQueryKeys_missing fs rest _ hmiss
    refine ⟨k0, h0, ?_⟩
    rw [hred, cyclesBody_eval _ _ _ hst hv, hchk]

/-- C8 witness: the amended theorem applied to the single-cycle stub with
the extra key name present everywhere. -/
theorem c8_projection_witness :
    (get_test_cycles zi0 net8w (some ["name"]) 20 0 "BLOCK").2 =
      Except.ok ([c8cycleA].map (projPure ("id" :: "key" :: optKeys (some ["name"])))) ∧
    ([c8cycleA].map (projPure ("id" :: "key" :: optKeys (some ["name"])))).length =
      [c8cycleA].length :=
  (c8_projection_of_cycles zi0 net8w (some ["name"]) "BLOCK" 20 0 [c8cycleA]
    (by decide) (by decide) rfl rfl).1 (by decide) (by simp)

/-- C9: when the listing returns an empty values list, get_test_cycles
raises IndexError (from indexing the first cycle in the key-validation
loop) rather than returning an empty list, whatever the extra keys. -/
theorem c9_empty_values_index_error :
    ∀ (zi : ZephyrInterface) (net : Net) (ck : Option (List String)) (pk : String)
      (mr sa : Int),
      mr ≠ 0 → sa % mr = 0 →
      (net (zephyrRequest zi "testcycles" (cyclesParams mr sa pk))).status = 200 →
      (net (zephyrRequest zi "testcycles" (cyclesParams mr sa pk))).body.item "values" =
        Except.ok (J.arr []) →
      (get_test_cycles zi net ck mr sa pk).2 = Except.error PyErr.indexError := by
  intro zi net ck pk mr sa hmr heq hst hv
  have hstle : ¬ 400 ≤ (net (zephyrRequest zi "testcycles" (cyclesParams mr sa pk))).status := by
    rw [hst]
    omega
  rw [get_test_cycles_snd zi net ck pk mr sa hmr heq hstle, cyclesBody_eval _ _ _ hst hv]
  rfl

/-- C9 witness: the theorem applied to the empty-listing stub with no
extra keys requested. -/
theorem c9_empty_values_witness :
    (get_test_cycles zi0 net9 none 20 0 "BLOCK").2 = Except.error PyErr.indexError :=
  c9_empty_values_index_error zi0 net9 none "BLOCK" 20 0 (by decide) (by decide) rfl rfl

/-- C10: for a test-execution payload whose testCase field carries a self
URL of at least three slash-separated segments, the static method returns
the pair of the third-from-last and the last segment; it takes no
transport and builds a fresh pair, leaving the input payload untouched. -/
theorem c10_extract_url_segments :
    ∀ (te tc : J) (url : String),
      pyDictGet te "testCase" = Except.ok tc →
      pyDictGet tc "self" = Except.ok (J.str url) →
      3 ≤ (splitChars '/' url.toList).length →
      extract_test_case_from_test_execution te =
        Except.ok ((splitChars '/' url.toList).reverse.getD 2 "",
                   (splitChars '/' url.toList).reverse.getD 0 "") := by
  intro te tc url h1 h2 h3
  have hrev : ∀ i : Nat, i < (splitChars '/' url.toList).length →
      (splitChars '/' url.toList).reverse.getD i "" =
        (splitChars '/' url.toList).getD ((splitChars '/' url.toList).length - 1 - i) "" := by
    intro i hi
    rw [List.getD_eq_getElem?_getD, List.getD_eq_getElem?_getD, List.getElem?_reverse hi]
  simp only [extract_test_case_from_test_execution, h1, h2, pySplitSlash, if_pos h3]
  rw [hrev 2 (by omega), hrev 0 (by omega),
      show (splitChars '/' url.toList).length - 1 - 2 =
        (splitChars '/' url.toList).length - 3 from by omega,
      Nat.sub_zero]

/-- The test-execution fixture for the C10 witness. -/
def te0 : J :=
  J.obj [("testCase",
    J.obj [("self", J.str "z/testcases/BLOCK-T21/versions/4")]),
    ("id", J.num 7)]

/-- C10 witness: the theorem applied to the fixture whose self URL splits
into five segments, returning the case name and version. -/
theorem c10_extract_witness :
    extract_test_case_from_test_execution te0 = Except.ok ("BLOCK-T21", "4") :=
  c10_extract_url_segments te0
    (J.obj [("self", J.str "z/testcases/BLOCK-T21/versions/4")])
    "z/testcases/BLOCK-T21/versions/4" rfl rfl (by decide)

end ZephyrProof
